import Mathlib

/-!
Verification of the LocationCheckins data-access layer: the descriptor-based
field system (`lib/models/base_model.py`), the `Location` model
(`lib/models/location.py`), the row adapter (`lib/models/model_helpers.py`)
and the repository (`lib/repositories/location.py`), shallowly embedded.
Python values flowing through the field layer are modelled by `PyVal`;
machine-level payloads (float bit-patterns, uuid bits, datetime wall-clock
instants) are abstract `Int` tokens, since the code only stores, compares
and type-checks them.
-/

namespace LocationCheckins

/-- Scalar Python values that appear in the field layer.  `vdt wall tz`
models a `datetime` with abstract wall-clock payload `wall` and
`tz = Option.none` for a naive datetime, `some o` for offset `o`
(UTC is `some 0`, the result of `tzutc()`). -/
inductive ScalarVal where
  | vnone
  | vbool (b : Bool)
  | vint (n : Int)
  | vfloat (t : Int)
  | vstr (s : String)
  | vdt (wall : Int) (tz : Option Int)
  | vuuid (u : Int)
deriving DecidableEq, Repr

/-- A Python value: a scalar, a dict (entries scalar-valued, as produced by
the cassandra driver for map columns), or a set-like collection. -/
inductive PyVal where
  | pscalar (v : ScalarVal)
  | pdict (m : List (String × ScalarVal))
  | pset (l : List ScalarVal)
deriving DecidableEq, Repr

/-- Python `None`. -/
def PyVal.pynone : PyVal := .pscalar .vnone

/-- Python truthiness of a scalar (`bool(v)`); datetimes and uuids are
always truthy. -/
def ScalarVal.truthy : ScalarVal → Bool
  | .vnone => false
  | .vbool b => b
  | .vint n => n != 0
  | .vfloat t => t != 0
  | .vstr s => !(s == "")
  | .vdt _ _ => true
  | .vuuid _ => true

/-- Python truthiness of a value; empty dict/set are falsy. -/
def PyVal.truthy : PyVal → Bool
  | .pscalar v => v.truthy
  | .pdict m => !m.isEmpty
  | .pset l => !l.isEmpty

/-- `isinstance(v, basestring)`. -/
def PyVal.isStr : PyVal → Bool
  | .pscalar (.vstr _) => true
  | _ => false

/-- `isinstance(v, float)`. -/
def PyVal.isFloat : PyVal → Bool
  | .pscalar (.vfloat _) => true
  | _ => false

/-- `isinstance(v, int)`; Python bools are int instances. -/
def PyVal.isInt : PyVal → Bool
  | .pscalar (.vint _) => true
  | .pscalar (.vbool _) => true
  | _ => false

/-- `isinstance(v, datetime)`. -/
def PyVal.isDT : PyVal → Bool
  | .pscalar (.vdt _ _) => true
  | _ => false

/-- `isinstance(v, UUID)`. -/
def PyVal.isUuid : PyVal → Bool
  | .pscalar (.vuuid _) => true
  | _ => false

/-- `isinstance(v, dict)`. -/
def PyVal.isDict : PyVal → Bool
  | .pdict _ => true
  | _ => false

/-- `isinstance(v, set)` (or the driver sorted-set types). -/
def PyVal.isSetLike : PyVal → Bool
  | .pset _ => true
  | _ => false

/-- Python `==` on scalars: naive and aware datetimes never compare equal,
aware datetimes compare by UTC instant; everything else structurally. -/
def ScalarVal.pyEq : ScalarVal → ScalarVal → Bool
  | .vdt w1 t1, .vdt w2 t2 =>
    match t1, t2 with
    | Option.none, Option.none => w1 == w2
    | some o1, some o2 => (w1 - o1) == (w2 - o2)
    | _, _ => false
  | a, b => a == b

/-- Python `==` on values. -/
def PyVal.pyEq : PyVal → PyVal → Bool
  | .pscalar a, .pscalar b => a.pyEq b
  | a, b => a == b

theorem scalar_pyEq_refl (v : ScalarVal) : v.pyEq v = true := by
  cases v with
  | vdt w tz => cases tz <;> simp [ScalarVal.pyEq]
  | _ => simp [ScalarVal.pyEq]

theorem PyVal.pyEq_refl (v : PyVal) : v.pyEq v = true := by
  cases v with
  | pscalar a => simpa [PyVal.pyEq] using scalar_pyEq_refl a
  | _ => simp [PyVal.pyEq]

/-- A field descriptor: its cassandra column name and its declared default
(`PyVal.pynone` models `default=None`, i.e. no default declared). -/
structure FieldDesc where
  columnname : String
  default : PyVal
deriving DecidableEq, Repr

/-- The validation error raised by a field setter (`Exception("Property %s
must be an instance of ...")`); it names the offending field. -/
structure VErr where
  fieldName : String
deriving DecidableEq, Repr

/-- A `_data` cell for one column: `Option.none` when the column is absent
from the instance's `_data` dict, `some v` when it is stored with value `v`
(possibly `PyVal.pynone`). -/
abbrev Cell := Option PyVal

/-- `instance._data.get(col) is None`: true when the column is absent or
stored as Python `None`. -/
def cellIsNone : Cell → Bool
  | Option.none => true
  | some v => v == PyVal.pynone

/-- `instance._data.get(col)` read as a value (absent reads as `None`). -/
def cellValue : Cell → PyVal
  | Option.none => PyVal.pynone
  | some v => v

/-- `Field.__get__`: the stored value when it is not `None`, else the
descriptor's default.  Inherited unchanged by the Boolean, Integer, Float
and String field variants. -/
def Field.get (f : FieldDesc) (cell : Cell) : PyVal :=
  match cell with
  | some v => if v != PyVal.pynone then v else f.default
  | Option.none => f.default

/-- `Field.serialize`: the identity (the base behaviour, used by every
Location field). -/
def Field.serializeVal (v : PyVal) : PyVal := v

/-- `StringField.__set__`: raises only for truthy non-string values, else
stores the value as given. -/
def StringField.set (f : FieldDesc) (v : PyVal) : Except VErr Cell :=
  if v.truthy && !v.isStr then .error ⟨f.columnname⟩
  else .ok (some v)

/-- `IntegerField.__set__`: `None` is stored; any other non-int raises. -/
def IntegerField.set (f : FieldDesc) (v : PyVal) : Except VErr Cell :=
  if v == PyVal.pynone then .ok (some PyVal.pynone)
  else if !v.isInt then .error ⟨f.columnname⟩
  else .ok (some v)

/-- `FloatField.__set__`: `None` is stored; any other non-float raises. -/
def FloatField.set (f : FieldDesc) (v : PyVal) : Except VErr Cell :=
  if v == PyVal.pynone then .ok (some PyVal.pynone)
  else if !v.isFloat then .error ⟨f.columnname⟩
  else .ok (some v)

/-- `value.tzinfo` truthiness for a datetime value. -/
def dtHasTz : PyVal → Bool
  | .pscalar (.vdt _ (some _)) => true
  | _ => false

/-- `value.replace(tzinfo=tzutc())` on a naive datetime. -/
def attachUtc : PyVal → PyVal
  | .pscalar (.vdt w Option.none) => .pscalar (.vdt w (some 0))
  | v => v

/-- `DateTimeField.__set__`: truthy non-datetimes raise; an aware datetime
is stored unchanged; a naive one is stored with UTC attached; anything
falsy stores `None`. -/
def DateTimeField.set (f : FieldDesc) (v : PyVal) : Except VErr Cell :=
  if v.truthy && !v.isDT then .error ⟨f.columnname⟩
  else if v.truthy && dtHasTz v then .ok (some v)
  else if v.truthy then .ok (some (attachUtc v))
  else .ok (some PyVal.pynone)

/-- `DateTimeField.__get__`: `None` when the stored value is falsy or the
column is absent, else the stored value; the declared default is never
consulted. -/
def DateTimeField.get (f : FieldDesc) (cell : Cell) : PyVal :=
  match cell with
  | some v => if v.truthy then v else PyVal.pynone
  | Option.none => PyVal.pynone

/-- `MapField.__set__` (the `OrderedMap` input case is pre-converted to a
plain dict in this model): truthy non-dicts raise; an explicit `None`
stores an empty dict; else the value is stored. -/
def MapField.set (f : FieldDesc) (v : PyVal) : Except VErr Cell :=
  if v.truthy && !v.isDict then .error ⟨f.columnname⟩
  else if v == PyVal.pynone then .ok (some (PyVal.pdict []))
  else .ok (some v)

/-- `MapField.__get__` as a state transformer on the cell: when the cell
reads as `None` the fallback (a truthy declared default, else a fresh empty
dict) is written into `_data` and returned. -/
def MapField.get (f : FieldDesc) (cell : Cell) : PyVal × Cell :=
  if cellIsNone cell then
    let fb := if f.default.truthy then f.default else PyVal.pdict []
    (fb, some fb)
  else (cellValue cell, cell)

/-- `SetField.__set__`: truthy non-set-likes raise; an explicit `None`
stores an empty set; else the value is stored. -/
def SetField.set (f : FieldDesc) (v : PyVal) : Except VErr Cell :=
  if v.truthy && !v.isSetLike then .error ⟨f.columnname⟩
  else if v == PyVal.pynone then .ok (some (PyVal.pset []))
  else .ok (some v)

/-- `SetField.__get__` as a state transformer on the cell. -/
def SetField.get (f : FieldDesc) (cell : Cell) : PyVal × Cell :=
  if cellIsNone cell then
    let fb := if f.default.truthy then f.default else PyVal.pset []
    (fb, some fb)
  else (cellValue cell, cell)

/-- `UuidField.__set__`: `None` is stored; non-UUIDs raise. -/
def UuidField.set (f : FieldDesc) (v : PyVal) : Except VErr Cell :=
  if v == PyVal.pynone then .ok (some PyVal.pynone)
  else if !v.isUuid then .error ⟨f.columnname⟩
  else .ok (some v)

/-- `UuidField.__get__` as a state transformer on the cell: a cell reading
as `None` falls back to a truthy declared default, else to `None`, and the
fallback is written into `_data`. -/
def UuidField.get (f : FieldDesc) (cell : Cell) : PyVal × Cell :=
  if cellIsNone cell then
    let fb := if f.default.truthy then f.default else PyVal.pynone
    (fb, some fb)
  else (cellValue cell, cell)

/-! ## The Location model (`lib/models/location.py`)

`Location` declares `username`, `location_name` as `StringField()`,
`latitude`, `longitude` as `FloatField()` and `timestamp_created` as
`DateTimeField()`, all with no explicit column name (so the column name is
back-filled with the attribute name by `ModelMeta`) and no default. -/

def usernameField : FieldDesc := ⟨"username", PyVal.pynone⟩

def locationNameField : FieldDesc := ⟨"location_name", PyVal.pynone⟩

def latitudeField : FieldDesc := ⟨"latitude", PyVal.pynone⟩

def longitudeField : FieldDesc := ⟨"longitude", PyVal.pynone⟩

def timestampCreatedField : FieldDesc := ⟨"timestamp_created", PyVal.pynone⟩

/-- A `Location` instance's `_data` dict, one cell per declared column. -/
structure LocData where
  username : Cell
  location_name : Cell
  latitude : Cell
  longitude : Cell
  timestamp_created : Cell
deriving DecidableEq, Repr

/-- A constructor input mapping: `Option.none` marks a key absent from the
`data` dict passed to `Model.__init__` (keys outside the registered
attribute set are not representable; `__init__` rejects them). -/
structure LocInput where
  username : Option PyVal
  location_name : Option PyVal
  latitude : Option PyVal
  longitude : Option PyVal
  timestamp_created : Option PyVal
deriving DecidableEq, Repr

/-- The plain mapping `attr -> value` returned by `Model.to_dict` (and,
with identical keys, the column mapping of `Model.serialize`). -/
structure LocDict where
  username : PyVal
  location_name : PyVal
  latitude : PyVal
  longitude : PyVal
  timestamp_created : PyVal
deriving DecidableEq, Repr

/-- One `setattr` step of `Model.__init__`: keys absent from the input
leave the fresh `_data` cell untouched; present keys run the descriptor's
validated setter. -/
def setOpt (setter : PyVal → Except VErr Cell) : Option PyVal → Except VErr Cell
  | Option.none => .ok Option.none
  | some v => setter v

/-- `Model.__init__` for `Location`: starts from an empty `_data` and
routes every supplied key through its descriptor's setter. -/
def Location.construct (inp : LocInput) : Except VErr LocData := do
  let u ← setOpt (StringField.set usernameField) inp.username
  let ln ← setOpt (StringField.set locationNameField) inp.location_name
  let la ← setOpt (FloatField.set latitudeField) inp.latitude
  let lo ← setOpt (FloatField.set longitudeField) inp.longitude
  let ts ← setOpt (DateTimeField.set timestampCreatedField) inp.timestamp_created
  pure ⟨u, ln, la, lo, ts⟩

/-- `location.username` attribute read. -/
def Location.getUsername (d : LocData) : PyVal := Field.get usernameField d.username

/-- `location.location_name` attribute read. -/
def Location.getLocationName (d : LocData) : PyVal :=
  Field.get locationNameField d.location_name

/-- `location.latitude` attribute read. -/
def Location.getLatitude (d : LocData) : PyVal := Field.get latitudeField d.latitude

/-- `location.longitude` attribute read. -/
def Location.getLongitude (d : LocData) : PyVal := Field.get longitudeField d.longitude

/-- `location.timestamp_created` attribute read. -/
def Location.getTimestampCreated (d : LocData) : PyVal :=
  DateTimeField.get timestampCreatedField d.timestamp_created

/-- `Model.to_dict`: `{attr: getattr(self, attr) for attr in
self.attributes}`. -/
def Location.to_dict (d : LocData) : LocDict :=
  ⟨Location.getUsername d, Location.getLocationName d, Location.getLatitude d,
   Location.getLongitude d, Location.getTimestampCreated d⟩

/-- `Model.serialize`: `fieldobj.serialize(getattr(self, attrname))` keyed
by column name; for `Location` every column name equals its attribute name
and every serializer is the base identity. -/
def Location.serialize (d : LocData) : LocDict :=
  ⟨Field.serializeVal (Location.getUsername d),
   Field.serializeVal (Location.getLocationName d),
   Field.serializeVal (Location.getLatitude d),
   Field.serializeVal (Location.getLongitude d),
   Field.serializeVal (Location.getTimestampCreated d)⟩

/-- `Model.__eq__` between two Locations: every registered attribute's
value (read through its getter) compares equal under Python `==`. -/
def Location.eq (a b : LocData) : Bool :=
  PyVal.pyEq (Location.getLatitude a) (Location.getLatitude b) &&
  PyVal.pyEq (Location.getLocationName a) (Location.getLocationName b) &&
  PyVal.pyEq (Location.getLongitude a) (Location.getLongitude b) &&
  PyVal.pyEq (Location.getTimestampCreated a) (Location.getTimestampCreated b) &&
  PyVal.pyEq (Location.getUsername a) (Location.getUsername b)

/-- All-keys-present input built from a plain mapping (reconstruction leg
of the round-trip law). -/
def LocInput.ofDict (d : LocDict) : LocInput :=
  ⟨some d.username, some d.location_name, some d.latitude, some d.longitude,
   some d.timestamp_created⟩

/-! ## Row adapter (`lib/models/model_helpers.py`) -/

/-- The inner normalization of `row_to_dict`: datetimes inside an
`OrderedMap` value that lack tzinfo get UTC attached. -/
def normalizeMapEntry : ScalarVal → ScalarVal
  | .vdt w Option.none => .vdt w (some 0)
  | v => v

/-- `row_to_dict` on one column value: `OrderedMap` values are converted to
plain dicts with naive datetimes normalized to UTC; every other value
passes through unchanged. -/
def row_to_dict_val : PyVal → PyVal
  | .pdict m => .pdict (m.map (fun p => (p.fst, normalizeMapEntry p.snd)))
  | v => v

/-- A result row of the two location tables. -/
structure Row where
  username : PyVal
  latitude : PyVal
  longitude : PyVal
  timestamp_created : PyVal
  location_name : PyVal
deriving DecidableEq, Repr

/-- `row_to_dict`: converts a result row into a constructor input mapping
holding every column. -/
def row_to_dict (r : Row) : LocInput :=
  ⟨some (row_to_dict_val r.username), some (row_to_dict_val r.location_name),
   some (row_to_dict_val r.latitude), some (row_to_dict_val r.longitude),
   some (row_to_dict_val r.timestamp_created)⟩

/-! ## Location repository (`lib/repositories/location.py`)

The storage state is the contents of the two tables, `location` (the
"by-username" table) and `location_by_timestamp`.  Storage-engine failures
are injected through a `FaultSpec` saying which of `create`'s two inserts
the engine fails; `create` also records the trace of its serialization and
insert operations. -/

structure Store where
  location : List Row
  location_by_timestamp : List Row
deriving DecidableEq, Repr

/-- A failure raised by the storage engine client (`StorageError`). -/
inductive StorageError where
  | err
deriving DecidableEq, Repr

/-- Which of the two inserts of `create` the storage engine fails. -/
structure FaultSpec where
  failFirst : Bool
  failSecond : Bool
deriving DecidableEq, Repr

/-- Operations `create` performs, in order: the one `to_dict` serialization
and each `client.execute` of a parameterized INSERT with its routing key. -/
inductive RepoOp where
  | toDictCall (result : LocDict)
  | insert (table : String) (params : LocDict) (routing_key : PyVal)
deriving DecidableEq, Repr

/-- The row written by an INSERT with parameter set `d`. -/
def rowOfDict (d : LocDict) : Row :=
  ⟨d.username, d.latitude, d.longitude, d.timestamp_created, d.location_name⟩

/-- Result of `LocationRepo.create`: final store, the propagated
`StorageError` if an insert failed (the code has no handler), and the
operation trace. -/
structure CreateResult where
  store : Store
  error : Option StorageError
  ops : List RepoOp
deriving DecidableEq, Repr

/-- `LocationRepo.create`: serializes via `location.to_dict()` once, then
INSERTs into `location`, then into `location_by_timestamp`, both with the
same parameter set and `routing_key=location.username`.  A failing insert
aborts at that point with the error; no rollback is attempted. -/
def LocationRepo.create (st : Store) (loc : LocData) (faults : FaultSpec) :
    CreateResult :=
  let location_dict := Location.to_dict loc
  let rk := Location.getUsername loc
  let op0 := RepoOp.toDictCall location_dict
  let op1 := RepoOp.insert "location" location_dict rk
  if faults.failFirst then ⟨st, some .err, [op0, op1]⟩
  else
    let st1 : Store := { st with location := st.location ++ [rowOfDict location_dict] }
    let op2 := RepoOp.insert "location_by_timestamp" location_dict rk
    if faults.failSecond then ⟨st1, some .err, [op0, op1, op2]⟩
    else
      ⟨{ st1 with
          location_by_timestamp :=
            st1.location_by_timestamp ++ [rowOfDict location_dict] },
       Option.none, [op0, op1, op2]⟩

/-- `LocationRepo.index`: `SELECT * FROM location`; an empty (falsy) result
returns `None`, else each row is adapted by `row_to_dict` and passed to the
`Location` constructor (whose validation errors propagate). -/
def LocationRepo.index (st : Store) : Except VErr (Option (List LocData)) :=
  let results := st.location
  if results.isEmpty then .ok Option.none
  else (results.mapM (fun r => Location.construct (row_to_dict r))).map some

/-- `LocationRepo.get`: `SELECT * FROM location_by_timestamp WHERE username
= %(username)s`; an empty (falsy) result returns `None`, else rows are
adapted and reconstructed. -/
def LocationRepo.get (st : Store) (username : PyVal) :
    Except VErr (Option (List LocData)) :=
  let results := st.location_by_timestamp.filter (fun r => r.username.pyEq username)
  if results.isEmpty then .ok Option.none
  else (results.mapM (fun r => Location.construct (row_to_dict r))).map some

/-! ## Helper lemmas for the constructor round-trip -/

/-- Invariant on a string-field cell after a successful `StringField.set`
(or an untouched cell): no stored value is both truthy and non-string. -/
def strCellOk : Cell → Bool
  | Option.none => true
  | some v => !(v.truthy && !v.isStr)

/-- Invariant on a float-field cell after a successful `FloatField.set`. -/
def floatCellOk : Cell → Bool
  | Option.none => true
  | some v => v == PyVal.pynone || v.isFloat

/-- Invariant on a timestamp cell after a successful `DateTimeField.set`:
only `None` or an offset-aware datetime is ever stored. -/
def dtCellOk : Cell → Bool
  | Option.none => true
  | some v => v == PyVal.pynone || dtHasTz v

theorem bind_ok_inv {α β : Type} {x : Except VErr α} {g : α → Except VErr β}
    {b : β} (h : (x >>= g) = .ok b) : ∃ a, x = .ok a ∧ g a = .ok b := by
  cases x with
  | error e => simp [Bind.bind, Except.bind] at h
  | ok a => exact ⟨a, rfl, by simpa [Bind.bind, Except.bind] using h⟩

theorem setOpt_str_ok {f : FieldDesc} {o : Option PyVal} {c : Cell}
    (h : setOpt (StringField.set f) o = .ok c) : strCellOk c = true := by
  cases o with
  | none => simp [setOpt] at h; subst h; rfl
  | some v =>
    simp only [setOpt, StringField.set] at h
    by_cases hg : (v.truthy && !v.isStr) = true
    · simp [hg] at h
    · rw [if_neg hg] at h
      cases h
      simp only [strCellOk]
      cases hb : (v.truthy && !v.isStr)
      · simp
      · exact absurd hb hg

theorem setOpt_float_ok {f : FieldDesc} {o : Option PyVal} {c : Cell}
    (h : setOpt (FloatField.set f) o = .ok c) : floatCellOk c = true := by
  cases o with
  | none => simp [setOpt] at h; subst h; rfl
  | some v =>
    simp only [setOpt, FloatField.set] at h
    by_cases h1 : (v == PyVal.pynone) = true
    · rw [if_pos h1] at h; cases h; rfl
    · rw [if_neg (by simp_all)] at h
      by_cases h2 : v.isFloat = true
      · rw [if_neg (by simp_all)] at h; cases h; simp [floatCellOk, h2]
      · rw [if_pos (by simp_all)] at h; cases h

theorem setOpt_dt_ok {f : FieldDesc} {o : Option PyVal} {c : Cell}
    (h : setOpt (DateTimeField.set f) o = .ok c) : dtCellOk c = true := by
  cases o with
  | none => simp [setOpt] at h; subst h; rfl
  | some v =>
    simp only [setOpt, DateTimeField.set] at h
    by_cases h1 : (v.truthy && !v.isDT) = true
    · simp [h1] at h
    · rw [if_neg h1] at h
      by_cases h2 : (v.truthy && dtHasTz v) = true
      · rw [if_pos h2] at h
        cases h
        have htz : dtHasTz v = true := by
          cases hb : dtHasTz v
          · rw [hb, Bool.and_false] at h2; exact absurd h2 (by simp)
          · rfl
        simp [dtCellOk, htz]
      · rw [if_neg h2] at h
        by_cases h3 : v.truthy = true
        · rw [if_pos h3] at h
          cases h
          have hdt : v.isDT = true := by
            cases hb : v.isDT
            · exact absurd (by rw [h3, hb]; rfl) h1
            · rfl
          cases v with
          | pscalar sc =>
            cases sc with
            | vdt w tz =>
              cases tz with
              | none => rfl
              | some o2 => exact absurd (by rw [h3]; simp [dtHasTz]) h2
            | vnone => simp [PyVal.isDT] at hdt
            | vbool b => simp [PyVal.isDT] at hdt
            | vint n => simp [PyVal.isDT] at hdt
            | vfloat t => simp [PyVal.isDT] at hdt
            | vstr s => simp [PyVal.isDT] at hdt
            | vuuid u => simp [PyVal.isDT] at hdt
          | pdict m => simp [PyVal.isDT] at hdt
          | pset l => simp [PyVal.isDT] at hdt
        · rw [if_neg h3] at h; cases h; rfl

theorem str_field_roundtrip (f : FieldDesc) (hd : f.default = PyVal.pynone)
    (c : Cell) (hc : strCellOk c = true) :
    ∃ c2, StringField.set f (Field.get f c) = .ok c2 ∧
      Field.get f c2 = Field.get f c := by
  have hnone : StringField.set f PyVal.pynone = .ok (some PyVal.pynone) := by
    simp [StringField.set, PyVal.truthy, PyVal.pynone, ScalarVal.truthy]
  have hgetnone : Field.get f (some PyVal.pynone) = PyVal.pynone := by
    simp [Field.get, hd]
  cases c with
  | none =>
    refine ⟨some PyVal.pynone, ?_, ?_⟩
    · simpa [Field.get, hd] using hnone
    · simp [Field.get, hd, hgetnone]
  | some v =>
    by_cases hv : v = PyVal.pynone
    · subst hv
      exact ⟨some PyVal.pynone, by simpa [hgetnone] using hnone,
        by simp [hgetnone]⟩
    · have hgv : Field.get f (some v) = v := by simp [Field.get, hv]
      refine ⟨some v, ?_, by simp [hgv]⟩
      rw [hgv]
      simp only [strCellOk] at hc
      have hcond : (v.truthy && !v.isStr) = false := by
        cases hb : (v.truthy && !v.isStr)
        · rfl
        · rw [hb] at hc; exact absurd hc (by simp)
      simp [StringField.set, hcond]

theorem float_field_roundtrip (f : FieldDesc) (hd : f.default = PyVal.pynone)
    (c : Cell) (hc : floatCellOk c = true) :
    ∃ c2, FloatField.set f (Field.get f c) = .ok c2 ∧
      Field.get f c2 = Field.get f c := by
  have hnone : FloatField.set f PyVal.pynone = .ok (some PyVal.pynone) := by
    simp [FloatField.set]
  have hgetnone : Field.get f (some PyVal.pynone) = PyVal.pynone := by
    simp [Field.get, hd]
  cases c with
  | none =>
    exact ⟨some PyVal.pynone, by simpa [Field.get, hd] using hnone,
      by simp [Field.get, hd, hgetnone]⟩
  | some v =>
    by_cases hv : v = PyVal.pynone
    · subst hv
      exact ⟨some PyVal.pynone, by simpa [hgetnone] using hnone,
        by simp [hgetnone]⟩
    · have hf : v.isFloat = true := by
        simp only [floatCellOk] at hc
        rcases (by simpa using hc : v = PyVal.pynone ∨ v.isFloat = true) with h1 | h1
        · exact absurd h1 hv
        · exact h1
      have hgv : Field.get f (some v) = v := by simp [Field.get, hv]
      refine ⟨some v, ?_, by simp [hgv]⟩
      rw [hgv]
      simp [FloatField.set, hf, hv]

theorem dt_field_roundtrip (f : FieldDesc) (c : Cell)
    (hc : dtCellOk c = true) :
    ∃ c2, DateTimeField.set f (DateTimeField.get f c) = .ok c2 ∧
      DateTimeField.get f c2 = DateTimeField.get f c := by
  have hnone : DateTimeField.set f PyVal.pynone = .ok (some PyVal.pynone) := by
    simp [DateTimeField.set, PyVal.truthy, PyVal.pynone, ScalarVal.truthy]
  have hgetnone : DateTimeField.get f (some PyVal.pynone) = PyVal.pynone := by
    simp [DateTimeField.get, PyVal.truthy, PyVal.pynone, ScalarVal.truthy]
  cases c with
  | none =>
    exact ⟨some PyVal.pynone, by simpa [DateTimeField.get] using hnone,
      by simp [DateTimeField.get, hgetnone]⟩
  | some v =>
    by_cases hv : v = PyVal.pynone
    · subst hv
      exact ⟨some PyVal.pynone, by simpa [hgetnone] using hnone,
        by simp [hgetnone]⟩
    · have htz : dtHasTz v = true := by
        simp only [dtCellOk] at hc
        rcases (by simpa using hc : v = PyVal.pynone ∨ dtHasTz v = true) with h1 | h1
        · exact absurd h1 hv
        · exact h1
      obtain ⟨w, o, rfl⟩ : ∃ w o, v = PyVal.pscalar (.vdt w (some o)) := by
        cases v with
        | pscalar sc =>
          cases sc with
          | vdt w tz =>
            cases tz with
            | none => simp [dtHasTz] at htz
            | some o => exact ⟨w, o, rfl⟩
          | _ => simp [dtHasTz] at htz
        | _ => simp [dtHasTz] at htz
      refine ⟨some (PyVal.pscalar (.vdt w (some o))), ?_, rfl⟩
      rfl

theorem construct_ok_cells (inp : LocInput) (d : LocData)
    (h : Location.construct inp = .ok d) :
    strCellOk d.username = true ∧ strCellOk d.location_name = true ∧
    floatCellOk d.latitude = true ∧ floatCellOk d.longitude = true ∧
    dtCellOk d.timestamp_created = true := by
  unfold Location.construct at h
  obtain ⟨cu, hu, h⟩ := bind_ok_inv h
  obtain ⟨cl, hl, h⟩ := bind_ok_inv h
  obtain ⟨ca, ha, h⟩ := bind_ok_inv h
  obtain ⟨co, ho, h⟩ := bind_ok_inv h
  obtain ⟨ct, ht, h⟩ := bind_ok_inv h
  simp only [pure, Except.pure, Except.ok.injEq] at h
  subst h
  exact ⟨setOpt_str_ok hu, setOpt_str_ok hl, setOpt_float_ok ha,
    setOpt_float_ok ho, setOpt_dt_ok ht⟩

/-! ## Claim theorems -/

/-- C1: for every Location, `create` serializes the location to its storage
mapping exactly once (a single `to_dict` call, which for `Location`
coincides with `serialize`) and issues exactly two inserts — one into the
`location` (by-username) table, one into `location_by_timestamp` — both
with that same serialized parameter set and routing key
`location.username`. -/
theorem create_serializes_once_and_dual_inserts (st : Store) (loc : LocData) :
    (LocationRepo.create st loc ⟨false, false⟩).ops =
      [RepoOp.toDictCall (Location.to_dict loc),
       RepoOp.insert "location" (Location.to_dict loc) (Location.getUsername loc),
       RepoOp.insert "location_by_timestamp" (Location.to_dict loc)
         (Location.getUsername loc)] ∧
    Location.serialize loc = Location.to_dict loc :=
  ⟨rfl, rfl⟩

/-- C2: when the first (by-username) insert succeeds and the second
(by-timestamp) insert fails with StorageError, `create` propagates the
error, the first insert's effect persists with no rollback, the
by-timestamp table is untouched, and a subsequent `get` for that username
against the by-timestamp table still returns no matching record. -/
theorem create_second_insert_failure (st : Store) (loc : LocData)
    (h : st.location_by_timestamp.filter
        (fun r => PyVal.pyEq r.username (Location.getUsername loc)) = []) :
    (LocationRepo.create st loc ⟨false, true⟩).error = some StorageError.err ∧
    (LocationRepo.create st loc ⟨false, true⟩).store.location =
      st.location ++ [rowOfDict (Location.to_dict loc)] ∧
    (LocationRepo.create st loc ⟨false, true⟩).store.location_by_timestamp =
      st.location_by_timestamp ∧
    LocationRepo.get (LocationRepo.create st loc ⟨false, true⟩).store
      (Location.getUsername loc) = .ok Option.none := by
  refine ⟨rfl, rfl, rfl, ?_⟩
  simp [LocationRepo.create, LocationRepo.get, h]

/-- Witness for C2: the alice scenario on an empty store. -/
theorem create_second_insert_failure_witness :
    (LocationRepo.create ⟨[], []⟩
        ⟨some (PyVal.pscalar (.vstr "alice")), Option.none, Option.none,
         Option.none, Option.none⟩ ⟨false, true⟩).error = some StorageError.err ∧
    (LocationRepo.create ⟨[], []⟩
        ⟨some (PyVal.pscalar (.vstr "alice")), Option.none, Option.none,
         Option.none, Option.none⟩ ⟨false, true⟩).store.location =
      [] ++ [rowOfDict (Location.to_dict
        ⟨some (PyVal.pscalar (.vstr "alice")), Option.none, Option.none,
         Option.none, Option.none⟩)] ∧
    (LocationRepo.create ⟨[], []⟩
        ⟨some (PyVal.pscalar (.vstr "alice")), Option.none, Option.none,
         Option.none, Option.none⟩ ⟨false, true⟩).store.location_by_timestamp = [] ∧
    LocationRepo.get (LocationRepo.create ⟨[], []⟩
        ⟨some (PyVal.pscalar (.vstr "alice")), Option.none, Option.none,
         Option.none, Option.none⟩ ⟨false, true⟩).store
      (Location.getUsername
        ⟨some (PyVal.pscalar (.vstr "alice")), Option.none, Option.none,
         Option.none, Option.none⟩) = .ok Option.none :=
  create_second_insert_failure ⟨[], []⟩
    ⟨some (PyVal.pscalar (.vstr "alice")), Option.none, Option.none,
     Option.none, Option.none⟩ rfl

/-- C3 counterexample: on an empty table, `index()` (and `get`) return the
null marker `None`, not an empty sequence. -/
theorem index_get_empty_counterexample :
    LocationRepo.index ⟨[], []⟩ = .ok Option.none ∧
    LocationRepo.get ⟨[], []⟩ (PyVal.pscalar (.vstr "alice")) = .ok Option.none ∧
    (Except.ok Option.none : Except VErr (Option (List LocData))) ≠
      Except.ok (some ([] : List LocData)) := by
  refine ⟨rfl, rfl, ?_⟩
  intro hcontra
  simp at hcontra

/-- C3 (amended): `index()` on an empty table returns `None` (a null
marker), and `get(username)` returns `None` when no stored row matches. -/
theorem index_get_none_on_empty (st : Store) (u : PyVal)
    (h1 : st.location = [])
    (h2 : st.location_by_timestamp.filter (fun r => PyVal.pyEq r.username u) = []) :
    LocationRepo.index st = .ok Option.none ∧
    LocationRepo.get st u = .ok Option.none := by
  constructor
  · simp [LocationRepo.index, h1]
  · simp [LocationRepo.get, h2]

/-- Witness for the amended C3 at the empty store. -/
theorem index_get_none_on_empty_witness :
    LocationRepo.index ⟨[], []⟩ = .ok Option.none ∧
    LocationRepo.get ⟨[], []⟩ PyVal.pynone = .ok Option.none :=
  index_get_none_on_empty ⟨[], []⟩ PyVal.pynone rfl rfl

/-- C4 counterexample: with one row present only in the `location` table,
`index()` returns that row; with the row present only in
`location_by_timestamp`, `index()` returns `None` — so `index` scans the
by-username (`location`) table and does read it, not the by-timestamp
table. -/
theorem index_reads_location_table_counterexample :
    LocationRepo.index
      ⟨[⟨PyVal.pscalar (.vstr "alice"), PyVal.pscalar (.vfloat 40),
         PyVal.pscalar (.vfloat (-73)), PyVal.pscalar (.vdt 100 (some 0)),
         PyVal.pscalar (.vstr "Central Park")⟩], []⟩ =
      Except.ok (some [⟨some (PyVal.pscalar (.vstr "alice")),
        some (PyVal.pscalar (.vstr "Central Park")),
        some (PyVal.pscalar (.vfloat 40)), some (PyVal.pscalar (.vfloat (-73))),
        some (PyVal.pscalar (.vdt 100 (some 0)))⟩]) ∧
    LocationRepo.index
      ⟨[], [⟨PyVal.pscalar (.vstr "alice"), PyVal.pscalar (.vfloat 40),
         PyVal.pscalar (.vfloat (-73)), PyVal.pscalar (.vdt 100 (some 0)),
         PyVal.pscalar (.vstr "Central Park")⟩]⟩ = Except.ok Option.none :=
  ⟨rfl, rfl⟩

/-- C4 (amended): `index()` performs a full scan of the `location`
(by-username) table — its result is the adapted reconstruction of every row
of that table and is independent of the by-timestamp table, which is read
only by `get`. -/
theorem index_scans_location_table (st : Store) (ls : List LocData)
    (h1 : st.location ≠ [])
    (h2 : st.location.mapM (fun r => Location.construct (row_to_dict r)) = .ok ls) :
    LocationRepo.index st = .ok (some ls) ∧
    LocationRepo.index st = LocationRepo.index ⟨st.location, []⟩ := by
  constructor
  · have he : st.location.isEmpty = false := by
      cases hl : st.location
      · exact absurd hl h1
      · rfl
    unfold LocationRepo.index
    rw [if_neg (by simp [he]), h2]
    rfl
  · rfl

/-- Witness for the amended C4 at a one-row store with a non-empty
by-timestamp table. -/
theorem index_scans_location_table_witness :
    LocationRepo.index
      ⟨[⟨PyVal.pscalar (.vstr "alice"), PyVal.pscalar (.vfloat 40),
         PyVal.pscalar (.vfloat (-73)), PyVal.pscalar (.vdt 100 (some 0)),
         PyVal.pscalar (.vstr "Central Park")⟩],
       [⟨PyVal.pscalar (.vstr "bob"), PyVal.pscalar (.vfloat 1),
         PyVal.pscalar (.vfloat 2), PyVal.pscalar (.vdt 3 (some 0)),
         PyVal.pscalar (.vstr "Home")⟩]⟩ =
      .ok (some [⟨some (PyVal.pscalar (.vstr "alice")),
        some (PyVal.pscalar (.vstr "Central Park")),
        some (PyVal.pscalar (.vfloat 40)), some (PyVal.pscalar (.vfloat (-73))),
        some (PyVal.pscalar (.vdt 100 (some 0)))⟩]) ∧
    LocationRepo.index
      ⟨[⟨PyVal.pscalar (.vstr "alice"), PyVal.pscalar (.vfloat 40),
         PyVal.pscalar (.vfloat (-73)), PyVal.pscalar (.vdt 100 (some 0)),
         PyVal.pscalar (.vstr "Central Park")⟩],
       [⟨PyVal.pscalar (.vstr "bob"), PyVal.pscalar (.vfloat 1),
         PyVal.pscalar (.vfloat 2), PyVal.pscalar (.vdt 3 (some 0)),
         PyVal.pscalar (.vstr "Home")⟩]⟩ =
      LocationRepo.index
        ⟨[⟨PyVal.pscalar (.vstr "alice"), PyVal.pscalar (.vfloat 40),
           PyVal.pscalar (.vfloat (-73)), PyVal.pscalar (.vdt 100 (some 0)),
           PyVal.pscalar (.vstr "Central Park")⟩], []⟩ :=
  index_scans_location_table
    ⟨[⟨PyVal.pscalar (.vstr "alice"), PyVal.pscalar (.vfloat 40),
       PyVal.pscalar (.vfloat (-73)), PyVal.pscalar (.vdt 100 (some 0)),
       PyVal.pscalar (.vstr "Central Park")⟩],
     [⟨PyVal.pscalar (.vstr "bob"), PyVal.pscalar (.vfloat 1),
       PyVal.pscalar (.vfloat 2), PyVal.pscalar (.vdt 3 (some 0)),
       PyVal.pscalar (.vstr "Home")⟩]⟩
    [⟨some (PyVal.pscalar (.vstr "alice")),
      some (PyVal.pscalar (.vstr "Central Park")),
      some (PyVal.pscalar (.vfloat 40)), some (PyVal.pscalar (.vfloat (-73))),
      some (PyVal.pscalar (.vdt 100 (some 0)))⟩]
    (by simp) rfl

/-- C5: for every constructor input mapping on which Location construction
succeeds, converting the entity with `to_dict` and constructing a new
Location from that mapping succeeds and yields an entity equal (by the
model `__eq__`) to the original. -/
theorem location_to_dict_roundtrip (inp : LocInput) (d : LocData)
    (h : Location.construct inp = .ok d) :
    ∃ d2, Location.construct (LocInput.ofDict (Location.to_dict d)) = .ok d2 ∧
      Location.eq d d2 = true := by
  obtain ⟨h1, h2, h3, h4, h5⟩ := construct_ok_cells inp d h
  obtain ⟨cu, hcu, hgu⟩ := str_field_roundtrip usernameField rfl d.username h1
  obtain ⟨cl, hcl, hgl⟩ := str_field_roundtrip locationNameField rfl d.location_name h2
  obtain ⟨ca, hca, hga⟩ := float_field_roundtrip latitudeField rfl d.latitude h3
  obtain ⟨co, hco, hgo⟩ := float_field_roundtrip longitudeField rfl d.longitude h4
  obtain ⟨ct, hct, hgt⟩ := dt_field_roundtrip timestampCreatedField d.timestamp_created h5
  refine ⟨⟨cu, cl, ca, co, ct⟩, ?_, ?_⟩
  · simp only [Location.construct, LocInput.ofDict, Location.to_dict,
      Location.getUsername, Location.getLocationName, Location.getLatitude,
      Location.getLongitude, Location.getTimestampCreated, setOpt,
      hcu, hcl, hca, hco, hct, Bind.bind, Except.bind, pure, Except.pure]
  · simp only [Location.eq, Location.getUsername, Location.getLocationName,
      Location.getLatitude, Location.getLongitude, Location.getTimestampCreated,
      hgu, hgl, hga, hgo, hgt]
    simp [PyVal.pyEq_refl]

/-- Witness for C5: a concrete construction with a naive timestamp. -/
theorem location_to_dict_roundtrip_witness :
    ∃ d2,
      Location.construct (LocInput.ofDict (Location.to_dict
        ⟨some (PyVal.pscalar (.vstr "alice")),
         some (PyVal.pscalar (.vstr "Central Park")),
         some (PyVal.pscalar (.vfloat 40)), some (PyVal.pscalar (.vfloat (-73))),
         some (PyVal.pscalar (.vdt 500 (some 0)))⟩)) = .ok d2 ∧
      Location.eq
        ⟨some (PyVal.pscalar (.vstr "alice")),
         some (PyVal.pscalar (.vstr "Central Park")),
         some (PyVal.pscalar (.vfloat 40)), some (PyVal.pscalar (.vfloat (-73))),
         some (PyVal.pscalar (.vdt 500 (some 0)))⟩ d2 = true :=
  location_to_dict_roundtrip
    ⟨some (PyVal.pscalar (.vstr "alice")),
     some (PyVal.pscalar (.vstr "Central Park")),
     some (PyVal.pscalar (.vfloat 40)), some (PyVal.pscalar (.vfloat (-73))),
     some (PyVal.pscalar (.vdt 500 Option.none))⟩
    ⟨some (PyVal.pscalar (.vstr "alice")),
     some (PyVal.pscalar (.vstr "Central Park")),
     some (PyVal.pscalar (.vfloat 40)), some (PyVal.pscalar (.vfloat (-73))),
     some (PyVal.pscalar (.vdt 500 (some 0)))⟩
    rfl

/-- C6 counterexample: a Timestamp descriptor with a declared default
returns `None`, not that default, when the value is unset. -/
theorem datetime_get_ignores_default_counterexample :
    DateTimeField.get ⟨"timestamp_created", PyVal.pscalar (.vdt 0 (some 0))⟩
      Option.none = PyVal.pynone ∧
    (FieldDesc.mk "timestamp_created" (PyVal.pscalar (.vdt 0 (some 0)))).default ≠
      PyVal.pynone :=
  ⟨rfl, by decide⟩

/-- C6 (amended): the base getter (shared by the Boolean, Integer, Float
and String variants) returns the stored value when set non-null and the
declared default when unset or null; the Map, Set and UID getters likewise
fall back to a (truthy) declared default when the cell reads as null; the
Timestamp getter, however, ignores its declared default and returns null
whenever the stored value is unset or null. -/
theorem field_get_default_contract :
    (∀ (f : FieldDesc) (v : PyVal), v ≠ PyVal.pynone → Field.get f (some v) = v) ∧
    (∀ f : FieldDesc, Field.get f Option.none = f.default) ∧
    (∀ f : FieldDesc, Field.get f (some PyVal.pynone) = f.default) ∧
    (∀ (f : FieldDesc) (w : Int) (tz : Option Int),
      DateTimeField.get f (some (PyVal.pscalar (.vdt w tz))) =
        PyVal.pscalar (.vdt w tz)) ∧
    (∀ f : FieldDesc, DateTimeField.get f Option.none = PyVal.pynone) ∧
    (∀ f : FieldDesc, DateTimeField.get f (some PyVal.pynone) = PyVal.pynone) ∧
    (∀ (f : FieldDesc) (v : PyVal), v ≠ PyVal.pynone →
      (MapField.get f (some v)).fst = v) ∧
    (∀ f : FieldDesc, f.default.truthy = true →
      (MapField.get f Option.none).fst = f.default) ∧
    (∀ (f : FieldDesc) (v : PyVal), v ≠ PyVal.pynone →
      (SetField.get f (some v)).fst = v) ∧
    (∀ f : FieldDesc, f.default.truthy = true →
      (SetField.get f Option.none).fst = f.default) ∧
    (∀ (f : FieldDesc) (v : PyVal), v ≠ PyVal.pynone →
      (UuidField.get f (some v)).fst = v) ∧
    (∀ f : FieldDesc, f.default.truthy = true →
      (UuidField.get f Option.none).fst = f.default) := by
  refine ⟨?_, fun f => rfl, ?_, fun f w tz => rfl, fun f => rfl, ?_, ?_, ?_, ?_, ?_, ?_, ?_⟩
  · intro f v h; simp [Field.get, h]
  · intro f; simp [Field.get]
  · intro f; simp [DateTimeField.get, PyVal.truthy, PyVal.pynone, ScalarVal.truthy]
  · intro f v h; simp [MapField.get, cellIsNone, cellValue, h]
  · intro f h; simp [MapField.get, cellIsNone, h]
  · intro f v h; simp [SetField.get, cellIsNone, cellValue, h]
  · intro f h; simp [SetField.get, cellIsNone, h]
  · intro f v h; simp [UuidField.get, cellIsNone, cellValue, h]
  · intro f h; simp [UuidField.get, cellIsNone, h]

/-- Witness for the amended C6 at concrete descriptors and values. -/
theorem field_get_default_contract_witness :
    Field.get ⟨"username", PyVal.pynone⟩ (some (PyVal.pscalar (.vstr "alice"))) =
      PyVal.pscalar (.vstr "alice") ∧
    (MapField.get ⟨"m", PyVal.pdict [("k", .vint 1)]⟩ Option.none).fst =
      PyVal.pdict [("k", .vint 1)] ∧
    (SetField.get ⟨"s", PyVal.pset [.vint 1]⟩ Option.none).fst =
      PyVal.pset [.vint 1] ∧
    (UuidField.get ⟨"u", PyVal.pscalar (.vuuid 7)⟩ Option.none).fst =
      PyVal.pscalar (.vuuid 7) := by
  obtain ⟨a1, a2, a3, a4, a5, a6, a7, a8, a9, a10, a11, a12⟩ :=
    field_get_default_contract
  exact ⟨a1 _ _ (by decide), a8 _ (by decide), a10 _ (by decide),
    a12 _ (by decide)⟩

/-- C7 counterexample: assigning the falsy non-null integer 0 to a String
field is accepted and stored, with no validation error. -/
theorem stringfield_accepts_falsy_wrong_type_counterexample :
    StringField.set ⟨"username", PyVal.pynone⟩ (PyVal.pscalar (.vint 0)) =
      .ok (some (PyVal.pscalar (.vint 0))) ∧
    PyVal.pscalar (.vint 0) ≠ PyVal.pynone ∧
    PyVal.isStr (PyVal.pscalar (.vint 0)) = false :=
  ⟨rfl, by decide, rfl⟩

/-- C7 (amended): Integer and Float fields reject every non-null
wrong-typed value with a validation error naming the field; a String field
rejects only truthy wrong-typed values (falsy ones such as 0 are stored
without error); assigning null to a String, Float or Integer field
succeeds, and reading the field back yields the declared default (null
when no default was declared). -/
theorem field_set_validation (f : FieldDesc) :
    (∀ v : PyVal, v.truthy = true → v.isStr = false →
      StringField.set f v = .error ⟨f.columnname⟩) ∧
    (∀ v : PyVal, v ≠ PyVal.pynone → v.isInt = false →
      IntegerField.set f v = .error ⟨f.columnname⟩) ∧
    (∀ v : PyVal, v ≠ PyVal.pynone → v.isFloat = false →
      FloatField.set f v = .error ⟨f.columnname⟩) ∧
    StringField.set f PyVal.pynone = .ok (some PyVal.pynone) ∧
    IntegerField.set f PyVal.pynone = .ok (some PyVal.pynone) ∧
    FloatField.set f PyVal.pynone = .ok (some PyVal.pynone) ∧
    Field.get f (some PyVal.pynone) = f.default := by
  refine ⟨?_, ?_, ?_, rfl, rfl, rfl, ?_⟩
  · intro v ht hs; simp [StringField.set, ht, hs]
  · intro v hv hi; simp [IntegerField.set, hv, hi]
  · intro v hv hf; simp [FloatField.set, hv, hf]
  · simp [Field.get]

/-- Witness for the amended C7 at a concrete descriptor and values. -/
theorem field_set_validation_witness :
    StringField.set ⟨"username", PyVal.pynone⟩ (PyVal.pscalar (.vint 5)) =
      .error ⟨"username"⟩ ∧
    IntegerField.set ⟨"count", PyVal.pynone⟩ (PyVal.pscalar (.vstr "x")) =
      .error ⟨"count"⟩ ∧
    FloatField.set ⟨"latitude", PyVal.pynone⟩ (PyVal.pscalar (.vstr "x")) =
      .error ⟨"latitude"⟩ ∧
    StringField.set ⟨"username", PyVal.pynone⟩ PyVal.pynone =
      .ok (some PyVal.pynone) ∧
    Field.get ⟨"username", PyVal.pynone⟩ (some PyVal.pynone) = PyVal.pynone := by
  obtain ⟨b1, b2, b3, b4, b5, b6, b7⟩ := field_set_validation ⟨"username", PyVal.pynone⟩
  obtain ⟨c1, c2, c3, c4, c5, c6, c7⟩ := field_set_validation ⟨"count", PyVal.pynone⟩
  obtain ⟨e1, e2, e3, e4, e5, e6, e7⟩ := field_set_validation ⟨"latitude", PyVal.pynone⟩
  exact ⟨b1 _ (by decide) (by decide), c2 _ (by decide) (by decide),
    e3 _ (by decide) (by decide), b4, b7⟩

/-- C8: setting a non-null datetime without a UTC offset stores it with the
UTC offset attached, so read-back carries the UTC offset; a datetime set
with an explicit offset (any offset, including non-UTC ones) is stored and
read back unchanged. -/
theorem datetime_utc_normalization (f : FieldDesc) (w : Int) :
    (DateTimeField.set f (PyVal.pscalar (.vdt w Option.none)) =
        .ok (some (PyVal.pscalar (.vdt w (some 0)))) ∧
      DateTimeField.get f (some (PyVal.pscalar (.vdt w (some 0)))) =
        PyVal.pscalar (.vdt w (some 0))) ∧
    ∀ o : Int,
      DateTimeField.set f (PyVal.pscalar (.vdt w (some o))) =
          .ok (some (PyVal.pscalar (.vdt w (some o)))) ∧
        DateTimeField.get f (some (PyVal.pscalar (.vdt w (some o)))) =
          PyVal.pscalar (.vdt w (some o)) :=
  ⟨⟨rfl, rfl⟩, fun o => ⟨rfl, rfl⟩⟩

/-- C9 counterexample: a UID field with declared default, explicitly
assigned null, reads back as the declared default rather than null. -/
theorem uuid_explicit_null_reads_default_counterexample :
    UuidField.set ⟨"uid", PyVal.pscalar (.vuuid 7)⟩ PyVal.pynone =
      .ok (some PyVal.pynone) ∧
    (UuidField.get ⟨"uid", PyVal.pscalar (.vuuid 7)⟩ (some PyVal.pynone)).fst =
      PyVal.pscalar (.vuuid 7) ∧
    PyVal.pscalar (.vuuid 7) ≠ PyVal.pynone :=
  ⟨rfl, rfl, by decide⟩

/-- C9 (amended): never-assigned Map/Set/UID fields fall back to a (truthy)
declared default; a Map or Set field explicitly assigned null stores the
empty map/set at set time and so reads back empty even when a default is
declared; but a UID field explicitly assigned null stores null and its
getter then falls back exactly like the never-set case: the declared
default when one is declared, null only when none is. -/
theorem map_set_uuid_null_handling (f : FieldDesc) :
    (f.default.truthy = true → (MapField.get f Option.none).fst = f.default) ∧
    (f.default.truthy = false → (MapField.get f Option.none).fst = PyVal.pdict []) ∧
    (MapField.set f PyVal.pynone = .ok (some (PyVal.pdict [])) ∧
      (MapField.get f (some (PyVal.pdict []))).fst = PyVal.pdict []) ∧
    (f.default.truthy = true → (SetField.get f Option.none).fst = f.default) ∧
    (f.default.truthy = false → (SetField.get f Option.none).fst = PyVal.pset []) ∧
    (SetField.set f PyVal.pynone = .ok (some (PyVal.pset [])) ∧
      (SetField.get f (some (PyVal.pset []))).fst = PyVal.pset []) ∧
    UuidField.set f PyVal.pynone = .ok (some PyVal.pynone) ∧
    (f.default.truthy = true → (UuidField.get f (some PyVal.pynone)).fst = f.default) ∧
    (f.default.truthy = false → (UuidField.get f (some PyVal.pynone)).fst = PyVal.pynone) := by
  refine ⟨?_, ?_, ⟨rfl, rfl⟩, ?_, ?_, ⟨rfl, rfl⟩, rfl, ?_, ?_⟩
  · intro h; simp [MapField.get, cellIsNone, h]
  · intro h; simp [MapField.get, cellIsNone, h]
  · intro h; simp [SetField.get, cellIsNone, h]
  · intro h; simp [SetField.get, cellIsNone, h]
  · intro h; simp [UuidField.get, cellIsNone, h]
  · intro h; simp [UuidField.get, cellIsNone, h]

/-- Witness for the amended C9 at concrete descriptors. -/
theorem map_set_uuid_null_handling_witness :
    (MapField.get ⟨"m", PyVal.pdict [("k", .vint 1)]⟩ Option.none).fst =
      PyVal.pdict [("k", .vint 1)] ∧
    (UuidField.get ⟨"u", PyVal.pscalar (.vuuid 7)⟩ (some PyVal.pynone)).fst =
      PyVal.pscalar (.vuuid 7) ∧
    (UuidField.get ⟨"u0", PyVal.pynone⟩ (some PyVal.pynone)).fst = PyVal.pynone := by
  obtain ⟨m1, m2, m3, m4, m5, m6, m7, m8, m9⟩ :=
    map_set_uuid_null_handling ⟨"m", PyVal.pdict [("k", .vint 1)]⟩
  obtain ⟨n1, n2, n3, n4, n5, n6, n7, n8, n9⟩ :=
    map_set_uuid_null_handling ⟨"u", PyVal.pscalar (.vuuid 7)⟩
  obtain ⟨p1, p2, p3, p4, p5, p6, p7, p8, p9⟩ :=
    map_set_uuid_null_handling ⟨"u0", PyVal.pynone⟩
  exact ⟨m1 (by decide), n8 (by decide), p9 (by decide)⟩

/-- C10: reading a never-assigned Map or Set field is not effect-free — the
getter writes the fallback value (the truthy declared default, else a fresh
empty map/set) into the entity's internal storage cell and returns that
same value, so the storage afterwards contains an entry for the column. -/
theorem map_set_get_not_effect_free (f : FieldDesc) :
    (MapField.get f Option.none).snd =
      some (if f.default.truthy then f.default else PyVal.pdict []) ∧
    (MapField.get f Option.none).fst =
      (if f.default.truthy then f.default else PyVal.pdict []) ∧
    (SetField.get f Option.none).snd =
      some (if f.default.truthy then f.default else PyVal.pset []) ∧
    (SetField.get f Option.none).fst =
      (if f.default.truthy then f.default else PyVal.pset []) :=
  ⟨rfl, rfl, rfl, rfl⟩

end LocationCheckins
